import Mathlib

/-!
Shallow embedding of the `imagecube.py` pipeline (astro2013 repository).

Conventions used throughout:
* Python floats are modelled as exact rationals (`ℚ`); the single
  transcendental computation in the source (`10 ** (-0.4 * MAGZP)` in the
  2MASS flux-conversion branch) is modelled with `Real.rpow`, so the
  flux-conversion factor lives in `ℝ`.
* A FITS header is modelled as a record of the keywords the embedded code
  reads; a missing keyword is `none`.  Reading a missing keyword with
  `header[...]` raises `KeyError` in Python, which is modelled by `Option`
  propagation (`none` = the process dies).
* `sys.exit()` is likewise modelled by returning `none`.
* Values that can be either a number or a string in Python (the wavelength
  extracted by `get_wavelength`) are modelled by the sum type `HVal`.
-/

namespace Imagecube

/-- Code constant `NYQUIST_SAMPLING_RATE` (imagecube.py line 49). -/
def NYQUIST_SAMPLING_RATE : ℚ := 3.3

/-- Code constant `MJY_PER_SR_TO_JY_PER_PIXEL = 2.3504 * 10**(-5)` (line 57). -/
def MJY_PER_SR_TO_JY_PER_PIXEL : ℚ := 2.3504e-5

/-- Code constant `FUV_LAMBDA_CON = 1.40 * 10**(-15)` (line 66). -/
def FUV_LAMBDA_CON : ℚ := 1.40e-15

/-- Code constant `NUV_LAMBDA_CON = 2.06 * 10**(-16)` (line 76). -/
def NUV_LAMBDA_CON : ℚ := 2.06e-16

/-- Code constant `FVEGA_J = 1594` (line 86). -/
def FVEGA_J : ℚ := 1594

/-- Code constant `FVEGA_H = 1024` (line 94). -/
def FVEGA_H : ℚ := 1024

/-- Code constant `FVEGA_KS = 666.7` (line 102). -/
def FVEGA_KS : ℚ := 666.7

/-- Code constant `WAVELENGTH_2MASS_J = 1.2409` (line 110). -/
def WAVELENGTH_2MASS_J : ℚ := 1.2409

/-- Code constant `WAVELENGTH_2MASS_H = 1.6514` (line 118). -/
def WAVELENGTH_2MASS_H : ℚ := 1.6514

/-- Code constant `WAVELENGTH_2MASS_KS = 2.1656` (line 126). -/
def WAVELENGTH_2MASS_KS : ℚ := 2.1656

/-- Code constant `JY_CONVERSION` (line 135): the inverse of
`u.Jy.to(u.erg / u.cm**2 / u.s / u.Hz, 1.)`, i.e. `(1e-23)⁻¹ = 1e23`
(a Jansky is exactly `1e-23 erg s⁻¹ cm⁻² Hz⁻¹`). -/
def JY_CONVERSION : ℚ := 10 ^ 23

/-- Code constant `S250_BEAM_AREA = 423` (line 143). -/
def S250_BEAM_AREA : ℚ := 423

/-- Code constant `S350_BEAM_AREA = 751` (line 151). -/
def S350_BEAM_AREA : ℚ := 751

/-- Code constant `S500_BEAM_AREA = 1587` (line 159). -/
def S500_BEAM_AREA : ℚ := 1587

/-- The value of `constants.c.to('angstrom/s').value` used in the GALEX
branch of `get_conversion_factor` (line 406): the speed of light is exactly
`299792458 m/s = 2.99792458e18 angstrom/s`. -/
def SPEED_OF_LIGHT_ANGSTROM_PER_S : ℚ := 2.99792458e18

/-- A FITS header value that is either a number or a string (the wavelength
returned by `get_wavelength` can be the raw `FILTER` string). -/
inductive HVal where
  | num (q : ℚ)
  | str (s : String)
  deriving DecidableEq, Repr

/-- The FITS header keywords read or written by the embedded code.  A field
of `none` models an absent keyword.  `WAVELENG` carries its comment string
(the code reads `header.comments['WAVELENG']` as the unit).  `JYPXFACT` is
the provenance keyword written by `convert_images`. -/
structure Header where
  INSTRUME : Option String := none
  INF0001 : Option String := none
  ORIGIN : Option String := none
  WAVELENG : Option (ℚ × String) := none
  WAVELNTH : Option ℚ := none
  FILTER : Option String := none
  MAGZP : Option ℚ := none
  PXSCAL1 : Option ℚ := none
  PLTSCALE : Option ℚ := none
  CDELT2 : Option ℚ := none
  BUNIT : Option String := none
  CRVAL1 : Option ℚ := none
  CRVAL2 : Option ℚ := none
  JYPXFACT : Option (ℝ × String) := none

/-- Boolean test that `needle` occurs as a contiguous substring of the
character list `hay`; models Python's `needle in haystack` on strings. -/
def list_contains_sub (needle : List Char) : List Char → Bool
  | [] => needle.isEmpty
  | c :: t => needle.isPrefixOf (c :: t) || list_contains_sub needle t

/-- Models Python's substring test `needle in haystack`. -/
def str_contains (haystack needle : String) : Bool :=
  list_contains_sub needle.toList haystack.toList

/-- Embedding of `get_instrument` (imagecube.py lines 286-318).
`none` models the `sys.exit()` call, which happens only when none of the
`INSTRUME`, `INF0001`, `ORIGIN` keywords is present; in every other case
the accumulated `instrument` string (possibly still `''`) is returned. -/
def get_instrument (header : Header) : Option String :=
  match header.INSTRUME with
  | some instrument => some instrument
  | none =>
    match header.INF0001 with
    | some info => some (if str_contains info "galex" then "GALEX" else "")
    | none =>
      match header.ORIGIN with
      | some origin => some (if str_contains origin "2MASS" then "2MASS" else "")
      | none => none

/-- The name set `u.micron.names ∪ u.um.names` of astropy, against which
`wavelength_to_microns` (line 270) tests its unit string. -/
def micron_names : List String := ["micron", "um", "micrometer"]

/-- The name set `u.angstrom.names` of astropy, against which
`wavelength_to_microns` (line 272) tests its unit string. -/
def angstrom_names : List String := ["AA", "angstrom", "Angstrom"]

/-- Models Python's `str.lower()`: case-folding of ASCII letters,
character by character. -/
def str_lower (s : String) : String := ⟨s.data.map Char.toLower⟩

/-- Models Python's `float(x)`: identity on numbers; raises `ValueError`
(modelled `none`) on the strings that occur here (filter names, never
numeric strings). -/
def hval_to_float : HVal → Option ℚ
  | HVal.num q => some q
  | HVal.str _ => none

/-- Embedding of `wavelength_to_microns` (lines 252-280): identity for a
micron unit, `u.angstrom.to(u.micron, w) = w * 1e-4` for an angstrom unit,
and the placeholder value `1` for every other unit string (that branch
performs no `float()` call, so it cannot die). -/
def wavelength_to_microns (wavelength : HVal) (unit : String) : Option ℚ :=
  if unit ∈ micron_names then hval_to_float wavelength
  else if unit ∈ angstrom_names then (hval_to_float wavelength).map (fun w => w / 10000)
  else some 1

/-- Embedding of `get_wavelength` (lines 448-489).  Returns the
(wavelength, unit) pair; `none` models the `sys.exit()` reachable through
the `get_instrument` call in the `FILTER` branch.  With no matching
keyword the initial values `(0, '')` are returned. -/
def get_wavelength (header : Header) : Option (HVal × String) :=
  match header.WAVELENG with
  | some wc => some (HVal.num wc.1, wc.2)
  | none =>
    match header.WAVELNTH with
    | some w => some (HVal.num w, "micron")
    | none =>
      match header.FILTER with
      | some filterName =>
        (get_instrument header).map (fun instrument =>
          if instrument = "2MASS" then
            if str_lower filterName = "j" then (HVal.num WAVELENGTH_2MASS_J, "micron")
            else if str_lower filterName = "h" then (HVal.num WAVELENGTH_2MASS_H, "micron")
            else if str_lower filterName = "k" then (HVal.num WAVELENGTH_2MASS_KS, "micron")
            else (HVal.str filterName, "micron")
          else (HVal.str filterName, "micron"))
      | none => some (HVal.num 0, "")

/-- One comparison step of `wavelength_range`: `lower <= i and i <= upper`.
Under Python 2 comparison rules a string compares greater than every
number, so for a string wavelength the first comparison is true and the
second false, giving `false` overall. -/
def hval_in_range (v : HVal) (lower upper : ℚ) : Bool :=
  match v with
  | HVal.num q => decide (lower ≤ q) && decide (q ≤ upper)
  | HVal.str _ => false

/-- Embedding of `wavelength_range` (lines 491-516): true when some entry
of the list lies between the bounds (the loop sets a flag, which is
`List.any`). -/
def wavelength_range (wavelengths : List HVal) (lower upper : ℚ) : Bool :=
  wavelengths.any (fun i => hval_in_range i lower upper)

/-- Appends a wavelength to the dictionary entry of `instrument`, creating
the entry when absent; models lines 547-550 of `get_fwhm_value` (the
association list stands for the Python dict `instruments_with_wavelengths`). -/
def add_image_wavelength (m : List (String × List HVal)) (instrument : String)
    (wavelength : HVal) : List (String × List HVal) :=
  if (m.lookup instrument).isSome then
    m.map (fun p => if p.1 = instrument then (p.1, p.2 ++ [wavelength]) else p)
  else m ++ [(instrument, [wavelength])]

/-- The dictionary-building loop of `get_fwhm_value` (lines 543-550), in
iteration order with accumulator `m`: for each image take its instrument
and wavelength and extend the map; `none` models a `sys.exit()` from
`get_instrument`. -/
def build_instruments_loop (m : List (String × List HVal)) :
    List Header → Option (List (String × List HVal))
  | [] => some m
  | header :: rest => do
    let instrument ← get_instrument header
    let wl ← get_wavelength header
    build_instruments_loop (add_image_wavelength m instrument wl.1) rest

/-- The instruments-with-wavelengths dictionary of `get_fwhm_value`,
built from the empty map. -/
def build_instruments_with_wavelengths (images : List Header) :
    Option (List (String × List HVal)) :=
  build_instruments_loop [] images

/-- The test `instr in instruments_with_wavelengths and
wavelength_range(instruments_with_wavelengths[instr], lower, upper)` used
by every rule of the FWHM table. -/
def range_check (m : List (String × List HVal)) (instrument : String)
    (lower upper : ℚ) : Bool :=
  match m.lookup instrument with
  | some ws => wavelength_range ws lower upper
  | none => false

/-- The ordered first-match-wins FWHM table of `get_fwhm_value`
(lines 552-571), applied to the instruments-with-wavelengths map; `0` when
no rule matches. -/
def fwhm_from_map (m : List (String × List HVal)) : ℚ :=
  if range_check m "MIPS" 140 170 then 76
  else if range_check m "SPIRE" 490 510 then 43
  else if range_check m "MIPS" 50 90 then 37
  else if range_check m "SPIRE" 300 400 then 30
  else if range_check m "SPIRE" 200 299 then 22
  else if range_check m "PACS" 140 180 then 18
  else if range_check m "MIPS" 18 30 then 13
  else if range_check m "PACS" 90 110 then 12.5
  else if range_check m "PACS" 60 80 then 10.5
  else 0

/-- Embedding of `get_fwhm_value` (lines 519-571). -/
def get_fwhm_value (images : List Header) : Option ℚ :=
  (build_instruments_with_wavelengths images).map fwhm_from_map

/-- Embedding of `get_native_pixelscale` (lines 322-355).
`u.deg.to(u.arcsec, x) = 3600 * x` exactly; `none` models the `KeyError`
raised when the instrument-specific keyword is absent.  In the default
branch a missing `CDELT2` leaves the initial value `0` (a warning is
printed, with no effect on the value). -/
def get_native_pixelscale (header : Header) (instrument : String) : Option ℚ :=
  if instrument = "IRAC" then header.PXSCAL1.map (fun p => |p|)
  else if instrument = "MIPS" then header.PLTSCALE
  else if instrument = "SPIRE" then header.CDELT2.map (fun c => 3600 * |c|)
  else
    match header.CDELT2 with
    | some c => some (3600 * |c|)
    | none => some 0

/-- The `f_lambda_con` selection inside the GALEX branch of
`get_conversion_factor` (lines 399-405): the FUV constant for a wavelength
(in angstrom) strictly below 2000, the NUV constant otherwise. -/
def galex_f_lambda (wavelength : ℚ) : ℚ :=
  if wavelength < 2000 then FUV_LAMBDA_CON else NUV_LAMBDA_CON

/-- The `fvega` selection inside the 2MASS branch of
`get_conversion_factor` (lines 412-418): a case-sensitive comparison of
the `FILTER` value against the lowercase names, with `0` as the default. -/
def fvega_of_filter (filterName : String) : ℚ :=
  if filterName = "j" then FVEGA_J
  else if filterName = "h" then FVEGA_H
  else if filterName = "k" then FVEGA_KS
  else 0

/-- Embedding of `get_conversion_factor` (lines 359-440).  All branches
are exact rational arithmetic except 2MASS, whose
`fvega * 10 ** (-0.4 * MAGZP)` needs a real power.  `u.um.to(u.angstrom,
w) = w * 10^4` exactly.  `none` models a `KeyError` on a missing keyword;
an instrument matching no branch (including the empty string) keeps the
initial value `0`, as does a SPIRE wavelength other than 250/350/500.
The PACS branch only prints a warning when `BUNIT` is not `Jy/pixel`, so
its factor is `1` unconditionally. -/
noncomputable def get_conversion_factor (header : Header) (instrument : String) :
    Option ℝ :=
  if instrument = "IRAC" then
    (get_native_pixelscale header "IRAC").map
      (fun pixelscale => ((MJY_PER_SR_TO_JY_PER_PIXEL * pixelscale ^ 2 : ℚ) : ℝ))
  else if instrument = "MIPS" then
    (get_native_pixelscale header "MIPS").map
      (fun pixelscale => ((MJY_PER_SR_TO_JY_PER_PIXEL * pixelscale ^ 2 : ℚ) : ℝ))
  else if instrument = "GALEX" then
    header.WAVELENG.map (fun wc =>
      ((JY_CONVERSION * galex_f_lambda (wc.1 * 10 ^ 4) * (wc.1 * 10 ^ 4) ^ 2 /
        SPEED_OF_LIGHT_ANGSTROM_PER_S : ℚ) : ℝ))
  else if instrument = "2MASS" then do
    let filterName ← header.FILTER
    let magzp ← header.MAGZP
    pure (((fvega_of_filter filterName : ℚ) : ℝ) *
      (10 : ℝ) ^ (((-(0.4 : ℚ)) * magzp : ℚ) : ℝ))
  else if instrument = "PACS" then some 1
  else if instrument = "SPIRE" then do
    let pixelscale ← get_native_pixelscale header "SPIRE"
    let wc ← header.WAVELENG
    if wc.1 = 250 then pure ((pixelscale ^ 2 / S250_BEAM_AREA : ℚ) : ℝ)
    else if wc.1 = 350 then pure ((pixelscale ^ 2 / S350_BEAM_AREA : ℚ) : ℝ)
    else if wc.1 = 500 then pure ((pixelscale ^ 2 / S500_BEAM_AREA : ℚ) : ℝ)
    else pure 0
  else some 0

/-- One unit of work of the pipeline: the triple
`(image_data, header, filename)` zipped together at ingestion
(lines 1235-1240).  The pixel array is flattened to a list. -/
structure Record where
  image : List ℚ
  header : Header
  filename : String

/-- The per-file body of the ingestion loop (lines 1209-1237): resolve the
wavelength, normalize it to microns, and write it back into the header as
`header['WAVELENG'] = (wavelength_microns, 'micron')`.  File I/O and the
data-cube extension check are outside the embedding; a `Record`-shaped
input already carries the image, header and extension-stripped filename. -/
def ingest_image (f : Record) : Option Record := do
  let wl ← get_wavelength f.header
  let wavelength_microns ← wavelength_to_microns wl.1 wl.2
  pure { f with header := { f.header with WAVELENG := some (wavelength_microns, "micron") } }

/-- The `WAVELENG` sort key of line 1241 (`header[1]['WAVELENG']`); after
ingestion the keyword is always present, so the default is never used. -/
def record_waveleng (r : Record) : ℚ :=
  (r.header.WAVELENG.map Prod.fst).getD 0

/-- The ingestion loop over all input files, in file order. -/
def ingest_loop : List Record → Option (List Record)
  | [] => some []
  | f :: rest => do
    let r ← ingest_image f
    let rs ← ingest_loop rest
    pure (r :: rs)

/-- Embedding of lines 1209-1241 of the main block: ingest every input
file, then sort the collection by the `WAVELENG` value written into each
header (`sorted(images_with_headers_unsorted, key=...)`, modelled by the
stable `List.insertionSort`). -/
def build_images_with_headers (files : List Record) : Option (List Record) :=
  (ingest_loop files).map
    (List.insertionSort (fun a b => record_waveleng a ≤ record_waveleng b))

/-- The comment string written with the `JYPXFACT` keyword (line 698). -/
def JYPXFACT_COMMENT : String := "Factor to convert original BUNIT into Jy/pixel."

/-- The observable outcome of one iteration of `convert_images`
(lines 682-701): the (mutated-in-place) record left in the collection, the
new array appended to `converted_data`, and the persisted FITS artifact
(name, data, header).  Directory handling is outside the embedding; the
artifact name keeps the `<original>_converted.fits` convention. -/
structure ConvOut where
  record : Record
  converted : List ℝ
  file_name : String
  file_data : List ℝ
  file_header : Header

/-- The two keyword writes of lines 697-698: `BUNIT = 'Jy/pixel'` and
`JYPXFACT = (factor, comment)`; every other keyword is untouched. -/
def converted_header (h : Header) (factor : ℝ) : Header :=
  { h with
    BUNIT := some "Jy/pixel",
    JYPXFACT := some (factor, JYPXFACT_COMMENT) }

/-- One iteration of `convert_images` (lines 682-701): look up instrument
and conversion factor, build `converted_data_array = image * factor` (a new
array - the record's own array is not written to), set the two keywords
`BUNIT = 'Jy/pixel'` and `JYPXFACT = (factor, comment)` in the record's
header in place, and persist the scaled array with that header. -/
noncomputable def convert_image (r : Record) : Option ConvOut := do
  let instrument ← get_instrument r.header
  let conversion_factor ← get_conversion_factor r.header instrument
  let converted_data_array := r.image.map (fun p => (p : ℝ) * conversion_factor)
  let newHeader := converted_header r.header conversion_factor
  pure { record := { r with header := newHeader },
         converted := converted_data_array,
         file_name := r.filename ++ "_converted.fits",
         file_data := converted_data_array,
         file_header := newHeader }

/-- Embedding of `convert_images` (lines 667-701): the loop over the
collection, in collection order. -/
noncomputable def convert_images : List Record → Option (List ConvOut)
  | [] => some []
  | r :: rest => do
    let out ← convert_image r
    let outs ← convert_images rest
    pure (out :: outs)

/-- The two header keywords whose mean `get_herschel_mean` can be asked
for (`'CRVAL1'` or `'CRVAL2'`). -/
inductive Keyword where
  | CRVAL1
  | CRVAL2
  deriving DecidableEq

/-- Reading the given keyword from a header (`images_with_headers[i][1][keyword]`);
`none` models the `KeyError` on a missing keyword. -/
def header_num (header : Header) : Keyword → Option ℚ
  | Keyword.CRVAL1 => header.CRVAL1
  | Keyword.CRVAL2 => header.CRVAL2

/-- The value-collecting loop of `get_herschel_mean` (lines 727-731), in
iteration order with accumulator `values`: only images whose instrument is
PACS or SPIRE contribute; `none` models `sys.exit()` from `get_instrument`
or a `KeyError` on the keyword. -/
def herschel_values_loop (kw : Keyword) (values : List ℚ) :
    List Record → Option (List ℚ)
  | [] => some values
  | r :: rest => do
    let instrument ← get_instrument r.header
    if instrument = "PACS" || instrument = "SPIRE" then do
      let value ← header_num r.header kw
      herschel_values_loop kw (values ++ [value]) rest
    else herschel_values_loop kw values rest

/-- Models `np.mean(values)`: `none` stands for the NaN that numpy returns
(with a runtime warning, not an exception) for an empty list; otherwise
the exact mean. -/
def np_mean (values : List ℚ) : Option ℚ :=
  if values.isEmpty then none else some (values.sum / values.length)

/-- Embedding of `get_herschel_mean` (lines 703-733).  The outer `Option`
models dying (instrument unresolvable / keyword missing); the inner
`Option` is the numpy result, where `none` is NaN. -/
def get_herschel_mean (images : List Record) (kw : Keyword) : Option (Option ℚ) :=
  (herschel_values_loop kw [] images).map np_mean

/-- The observable outcome of one iteration of `register_images`
(lines 765-810): the registration of one image onto the synthetic grid
whose WCS is centred at `(lngref, latref)` (an `Option ℚ` because numpy's
NaN can flow in) at the image's native pixel scale. -/
structure RegAction where
  filename : String
  lngref : Option ℚ
  latref : Option ℚ
  pixelscale : ℚ
  deriving DecidableEq

/-- One iteration of the `register_images` loop: resolve the instrument and
native pixel scale, read `BUNIT` (a `KeyError` if absent, line 770), and
perform the warp; the iraf calls themselves are the external registration
service, so the action record is the embedding's observable. -/
def reg_action (lngref latref : Option ℚ) (r : Record) : Option RegAction := do
  let instrument ← get_instrument r.header
  let native_pixelscale ← get_native_pixelscale r.header instrument
  let _ ← r.header.BUNIT
  pure { filename := r.filename, lngref := lngref, latref := latref,
         pixelscale := native_pixelscale }

/-- The per-image loop of `register_images`, in collection order. -/
def register_loop (lngref latref : Option ℚ) : List Record → Option (List RegAction)
  | [] => some []
  | r :: rest => do
    let a ← reg_action lngref latref r
    let as ← register_loop lngref latref rest
    pure (a :: as)

/-- One reference coordinate of `register_images` (lines 755-763): the
user-supplied value when present (`ra_input != ''`), else the Herschel
mean of the keyword. -/
def reference_value (inp : Option ℚ) (images : List Record) (kw : Keyword) :
    Option (Option ℚ) :=
  match inp with
  | some v => some (some v)
  | none => get_herschel_mean images kw

/-- Embedding of `register_images` (lines 740-810): the reference position
is the user RA/Dec when supplied (`ra_input != ''`), else the Herschel mean
of `CRVAL1`/`CRVAL2`; then every image is registered to it.  The result is
`none` only when some image dies (unresolvable instrument, missing
keyword); a NaN reference (inner `none`) flows on silently. -/
def register_images (ra_input dec_input : Option ℚ) (images : List Record) :
    Option (List RegAction) := do
  let lngref ← reference_value ra_input images Keyword.CRVAL1
  let latref ← reference_value dec_input images Keyword.CRVAL2
  register_loop lngref latref images

/-- Which stage output directories currently exist under the input
directory (the on-disk layout of section 6 of the spec). -/
structure DirState where
  converted : Bool
  registered : Bool
  convolved : Bool
  resampled : Bool
  seds : Bool
  datacube : Bool
  deriving DecidableEq

/-- The stage-selection flags of the orchestrator (`do_conversion`, ...,
`do_seds`). -/
structure StageFlags where
  do_conversion : Bool
  do_registration : Bool
  do_convolution : Bool
  do_resampling : Bool
  do_seds : Bool

/-- Directory creation performed by the enabled stages, in the fixed stage
order of the main block (lines 1246-1259): each stage creates its output
directory; `resample_images` also calls `create_data_cube`, which creates
`datacube/` (lines 949-952). -/
def run_stages (flags : StageFlags) (s : DirState) : DirState :=
  let s := if flags.do_conversion then { s with converted := true } else s
  let s := if flags.do_registration then { s with registered := true } else s
  let s := if flags.do_convolution then { s with convolved := true } else s
  let s := if flags.do_resampling then { s with resampled := true, datacube := true } else s
  if flags.do_seds then { s with seds := true } else s

/-- Embedding of `cleanup_output_files` (lines 1160-1174): `shutil.rmtree`
on each of the five listed directories when present (`datacube` is not in
the list); the function touches nothing else, and the main block exits
right after calling it (lines 1193-1195), so no processing follows. -/
def cleanup_output_files (s : DirState) : DirState :=
  { s with converted := false, registered := false, convolved := false,
           resampled := false, seds := false }

/-- The observable outcome of one iteration of `convolve_images`
(lines 888-927): the per-image kernel width and filenames, and the FWHM
value written into the persisted header (`header['FWHM'] = (fwhm_input,
...)`, line 923).  The file reads/writes and the `make_kernel`/`convolve`
calls are the external convolution routine. -/
structure ConvolveAction where
  filename : String
  input_name : String
  output_name : String
  sigma : ℝ
  fwhm : ℚ

/-- One iteration of the `convolve_images` loop: resolve the instrument
and native pixel scale, then build
`sigma_input = fwhm_input / (2 * sqrt(2 * ln 2) * native_pixelscale)`
(line 891).  The divisor vanishes exactly when the pixel scale is 0
(`sqrt(2 ln 2) > 0`), in which case Python raises `ZeroDivisionError`,
modelled `none`. -/
noncomputable def convolve_action (fwhm_input : ℚ) (r : Record) :
    Option ConvolveAction := do
  let instrument ← get_instrument r.header
  let native_pixelscale ← get_native_pixelscale r.header instrument
  if native_pixelscale = 0 then none
  else
    pure { filename := r.filename,
           input_name := r.filename ++ "_registered.fits",
           output_name := r.filename ++ "_convolved.fits",
           sigma := (fwhm_input : ℝ) /
             (2 * Real.sqrt (2 * Real.log 2) * (native_pixelscale : ℝ)),
           fwhm := fwhm_input }

/-- The per-image loop of `convolve_images`, in collection order. -/
noncomputable def convolve_loop (fwhm_input : ℚ) :
    List Record → Option (List ConvolveAction)
  | [] => some []
  | r :: rest => do
    let a ← convolve_action fwhm_input r
    let as ← convolve_loop fwhm_input rest
    pure (a :: as)

/-- Embedding of `convolve_images` (lines 871-927): the common FWHM is the
aggregate `get_fwhm_value` over the whole set (line 885, computed before
the loop), then every image is convolved in collection order. -/
noncomputable def convolve_images (images : List Record) :
    Option (List ConvolveAction) := do
  let fwhm_input ← get_fwhm_value (images.map Record.header)
  convolve_loop fwhm_input images

/-- Models a Python float division `a / b`: `ZeroDivisionError` (`none`)
when the divisor is 0. -/
def safe_div (a b : ℚ) : Option ℚ :=
  if b = 0 then none else some (a / b)

/-- The shared synthetic grid of `resample_images` (lines 985-1012): one
grid for the whole set, `ncols = nlines = phys_size / (fwhm /
NYQUIST_SAMPLING_RATE)`, centred at the reference position (user RA/Dec or
the Herschel mean, an `Option ℚ` because numpy's NaN can flow in). -/
structure ResampleGrid where
  ncols : ℚ
  lngref : Option ℚ
  latref : Option ℚ

/-- The observable outcome of one iteration of the `resample_images` loop
(lines 1014-1031): pure filename manipulation plus the warp onto the
shared grid (the iraf call is the external registration service), so the
loop body cannot die. -/
structure ResampleAction where
  filename : String
  input_name : String
  output_name : String

/-- One iteration of the `resample_images` loop. -/
def resample_action (r : Record) : ResampleAction :=
  { filename := r.filename,
    input_name := r.filename ++ "_convolved.fits",
    output_name := r.filename ++ "_resampled.fits" }

/-- Embedding of `resample_images` (lines 968-1033): compute the common
FWHM (line 988), the grid size `parameter1 = phys_size / (fwhm_input /
NYQUIST_SAMPLING_RATE)` (line 991, a `ZeroDivisionError` when the FWHM
lookup returned 0), and the reference position (lines 996-1003), then
warp every image onto the single shared grid in collection order.  The
`create_data_cube` call that follows the loop reads the per-image outputs
in the same order. -/
def resample_images (phys_size : ℚ) (ra_input dec_input : Option ℚ)
    (images : List Record) : Option (ResampleGrid × List ResampleAction) := do
  let fwhm_input ← get_fwhm_value (images.map Record.header)
  let parameter1 ← safe_div phys_size (fwhm_input / NYQUIST_SAMPLING_RATE)
  let lngref ← reference_value ra_input images Keyword.CRVAL1
  let latref ← reference_value dec_input images Keyword.CRVAL2
  pure ({ ncols := parameter1, lngref := lngref, latref := latref },
    images.map resample_action)

/-- The observable outcome of one iteration of the first `output_seds`
loop (lines 1054-1071): the resampled file read for this image and the
wavelength appended to the `wavelengths` list. -/
structure SedInput where
  filename : String
  input_name : String
  wavelength : HVal

/-- One iteration of the first `output_seds` loop: the wavelength comes
from `get_wavelength` (line 1060), which can die through
`get_instrument`. -/
def sed_input (r : Record) : Option SedInput :=
  (get_wavelength r.header).map (fun wl =>
    { filename := r.filename,
      input_name := r.filename ++ "_resampled.fits",
      wavelength := wl.1 })

/-- Embedding of the collection-iterating part of `output_seds`
(lines 1035-1071), in collection order; the per-pixel table assembly and
plotting that follow consume the data read here and are external. -/
def output_seds : List Record → Option (List SedInput)
  | [] => some []
  | r :: rest => do
    let s ← sed_input r
    let ss ← output_seds rest
    pure (s :: ss)

/-! ### Fixtures -/

/-- A SPIRE header with wavelength 250 micron. -/
def spire250_header : Header :=
  { INSTRUME := some "SPIRE", WAVELENG := some (250, "micron") }

/-- A SPIRE header with wavelength 350 micron. -/
def spire350_header : Header :=
  { INSTRUME := some "SPIRE", WAVELENG := some (350, "micron") }

/-- A header carrying only a mission keyword whose value does not contain
the substring `galex`. -/
def inf_only_header : Header := { INF0001 := some "hipe output" }

/-- The empty directory state (no stage has run yet). -/
def no_dirs : DirState :=
  { converted := false, registered := false, convolved := false,
    resampled := false, seds := false, datacube := false }

/-- All five stage flags enabled. -/
def all_stages : StageFlags :=
  { do_conversion := true, do_registration := true, do_convolution := true,
    do_resampling := true, do_seds := true }

/-! ### C1 -/

/-- C1 counterexample: for an image set whose instruments-with-wavelengths
map is exactly SPIRE ↦ [250, 350], `get_fwhm_value` returns 30 — not 43 as
the claim states (the first matching rule is the SPIRE 300-400 band). -/
theorem get_fwhm_spire_250_350_not_43 :
    build_instruments_with_wavelengths [spire250_header, spire350_header] =
      some [("SPIRE", [HVal.num 250, HVal.num 350])] ∧
    get_fwhm_value [spire250_header, spire350_header] = some 30 ∧
    get_fwhm_value [spire250_header, spire350_header] ≠ some 43 := by
  decide

/-- C1 (amended): for an image set whose instruments-with-wavelengths map
contains only SPIRE with wavelength list [250, 350], the common-FWHM
lookup returns FWHM 30: the first matching rule of the ordered table is
the SPIRE 300-400 band (matched by 350), which precedes the SPIRE 200-299
band that 250 would match. -/
theorem get_fwhm_spire_250_350_is_30 :
    build_instruments_with_wavelengths [spire250_header, spire350_header] =
      some [("SPIRE", [HVal.num 250, HVal.num 350])] ∧
    get_fwhm_value [spire250_header, spire350_header] = some 30 := by
  decide

/-! ### C3 -/

/-- C3 (code bug): after all five stages have executed (so all six stage
output directories exist, `datacube/` having been created by the
resampling stage), `cleanup_output_files` removes `converted/`,
`registered/`, `convolved/`, `resampled/` and `seds/` but leaves
`datacube/` in place, contradicting the claim (and the script's own usage
text) that no stage output directory remains. -/
theorem cleanup_leaves_datacube :
    cleanup_output_files (run_stages all_stages no_dirs) =
      { converted := false, registered := false, convolved := false,
        resampled := false, seds := false, datacube := true } ∧
    (cleanup_output_files (run_stages all_stages no_dirs)).datacube = true := by
  decide

/-! ### C4 -/

/-- C4 counterexample: a header whose only recognized keyword is a mission
keyword `INF0001` not containing `galex` resolves no instrument, yet
`get_instrument` returns the silently-defaulted empty-string tag instead
of terminating (`none` models `sys.exit()`). -/
theorem get_instrument_inf_no_galex_not_fatal :
    get_instrument inf_only_header = some "" ∧
    get_instrument inf_only_header ≠ none := by
  decide

/-- C4 (amended): instrument resolution terminates the run (`none`) exactly
when none of the keywords `INSTRUME`, `INF0001`, `ORIGIN` is present; when
`INF0001` is present but its value does not contain `galex` (and
`INSTRUME` is absent), the empty-string instrument tag is returned
silently. -/
theorem get_instrument_fatal_iff_no_keywords :
    (∀ h : Header, get_instrument h = none ↔
      h.INSTRUME = none ∧ h.INF0001 = none ∧ h.ORIGIN = none) ∧
    (∀ (h : Header) (info : String), h.INSTRUME = none → h.INF0001 = some info →
      str_contains info "galex" = false → get_instrument h = some "") := by
  constructor
  · intro h
    cases hI : h.INSTRUME with
    | some v => simp [get_instrument, hI]
    | none =>
      cases hF : h.INF0001 with
      | some v => simp [get_instrument, hI, hF]
      | none =>
        cases hO : h.ORIGIN with
        | some v => simp [get_instrument, hI, hF, hO]
        | none => simp [get_instrument, hI, hF, hO]
  · intro h info h1 h2 h3
    simp [get_instrument, h1, h2, h3]

/-- Witness for C4's amended theorem at a concrete header. -/
theorem get_instrument_fatal_iff_no_keywords_witness :
    get_instrument inf_only_header = some "" :=
  get_instrument_fatal_iff_no_keywords.2 inf_only_header "hipe output" rfl rfl
    (by decide)

/-! ### C2 -/

/-- A GALEX header whose `WAVELENG` value is 0.2 micron (exactly 2000
angstrom). -/
def galex_header : Header :=
  { INSTRUME := some "GALEX", WAVELENG := some (0.2, "micron") }

/-- C5: for every GALEX image the conversion factor is
`JY_CONVERSION * f_lambda * wavelength_AA^2 / c` with
`wavelength_AA = WAVELENG * 10^4`, and `f_lambda` is the FUV constant
`1.40e-15` exactly when the wavelength in angstrom is strictly below 2000
(so at exactly 2000 angstrom the NUV constant `2.06e-16` is selected). -/
theorem galex_f_lambda_strict_threshold :
    (∀ wAA : ℚ, galex_f_lambda wAA = FUV_LAMBDA_CON ↔ wAA < 2000) ∧
    galex_f_lambda 2000 = NUV_LAMBDA_CON ∧
    (∀ (h : Header) (w : ℚ) (cmt : String), h.WAVELENG = some (w, cmt) →
      get_conversion_factor h "GALEX" =
        some ((JY_CONVERSION * galex_f_lambda (w * 10 ^ 4) * (w * 10 ^ 4) ^ 2 /
          SPEED_OF_LIGHT_ANGSTROM_PER_S : ℚ) : ℝ)) := by
  refine ⟨?_, ?_, ?_⟩
  · intro wAA
    unfold galex_f_lambda
    split_ifs with hlt
    · simp [hlt]
    · constructor
      · intro heq
        exfalso
        have : NUV_LAMBDA_CON ≠ FUV_LAMBDA_CON := by
          unfold NUV_LAMBDA_CON FUV_LAMBDA_CON
          norm_num
        exact this heq
      · intro hlt'
        exact absurd hlt' hlt
  · unfold galex_f_lambda
    norm_num
  · intro h w cmt hW
    simp [get_conversion_factor, hW]

/-- Witness for C5 at the boundary fixture: exactly 2000 angstrom selects
the NUV constant, and the factor of the 0.2-micron GALEX header is the
NUV-based value. -/
theorem galex_f_lambda_strict_threshold_witness :
    (galex_f_lambda 1999 = FUV_LAMBDA_CON ↔ (1999 : ℚ) < 2000) ∧
    get_conversion_factor galex_header "GALEX" =
      some ((JY_CONVERSION * galex_f_lambda (0.2 * 10 ^ 4) * (0.2 * 10 ^ 4) ^ 2 /
        SPEED_OF_LIGHT_ANGSTROM_PER_S : ℚ) : ℝ) :=
  ⟨galex_f_lambda_strict_threshold.1 1999,
   galex_f_lambda_strict_threshold.2.2 galex_header 0.2 "micron" rfl⟩

/-! ### C6 -/

/-- An IRAC header with native pixel scale keyword `PXSCAL1 = 1.2`. -/
def irac_header : Header := { INSTRUME := some "IRAC", PXSCAL1 := some 1.2 }

/-- A SPIRE header with `CDELT2 = 6/3600` degrees (6 arcsec) and
wavelength exactly 250. -/
def spire_conv_header : Header :=
  { INSTRUME := some "SPIRE", CDELT2 := some (6 / 3600),
    WAVELENG := some (250, "micron") }

/-- A 2MASS header with `FILTER = 'j'` and `MAGZP = 20.0`. -/
def twomass_header : Header :=
  { INSTRUME := some "2MASS", FILTER := some "j", MAGZP := some 20 }

/-- A PACS header already in Jy/pixel. -/
def pacs_header : Header :=
  { INSTRUME := some "PACS", BUNIT := some "Jy/pixel" }

/-- C6: the section 4.2 calibration formulas on literal fixtures — IRAC
with pixelscale 1.2 gives `2.3504e-5 * 1.2^2`; SPIRE at wavelength 250
with a 6-arcsec pixel gives `36/423`; 2MASS with filter `j` and
`MAGZP = 20` gives `1594 * 10^(-8)`; PACS gives 1; and MIPS uses the same
`K1 * pixelscale^2` formula as IRAC for every `PLTSCALE` value. -/
theorem conversion_factor_reference_values :
    get_conversion_factor irac_header "IRAC" =
      some ((2.3504e-5 : ℝ) * 1.2 ^ 2) ∧
    get_conversion_factor spire_conv_header "SPIRE" = some ((36 : ℝ) / 423) ∧
    get_conversion_factor twomass_header "2MASS" =
      some ((1594 : ℝ) / 10 ^ 8) ∧
    get_conversion_factor pacs_header "PACS" = some 1 ∧
    (∀ ps : ℚ, get_conversion_factor { PLTSCALE := some ps } "MIPS" =
      some ((MJY_PER_SR_TO_JY_PER_PIXEL * ps ^ 2 : ℚ) : ℝ)) := by
  refine ⟨?_, ?_, ?_, ?_, ?_⟩
  · simp only [get_conversion_factor, get_native_pixelscale, irac_header]
    norm_num [MJY_PER_SR_TO_JY_PER_PIXEL]
  · simp [get_conversion_factor, get_native_pixelscale, spire_conv_header]
    rw [show |(6 / 3600 : ℝ)| = 6 / 3600 by norm_num]
    norm_num [S250_BEAM_AREA]
  · simp [get_conversion_factor, twomass_header, fvega_of_filter, FVEGA_J]
    rw [show (-(0.4 * 20) : ℝ) = ((-8 : ℤ) : ℝ) by norm_num, Real.rpow_intCast]
    norm_num
  · simp [get_conversion_factor]
  · intro ps
    simp [get_conversion_factor, get_native_pixelscale]

/-! ### C7 -/

/-- Characterization of one conversion iteration once the instrument and
factor resolve. -/
theorem convert_image_eq (r : Record) (instrument : String) (factor : ℝ)
    (h1 : get_instrument r.header = some instrument)
    (h2 : get_conversion_factor r.header instrument = some factor) :
    convert_image r = some
      { record := { r with header := converted_header r.header factor },
        converted := r.image.map (fun p => (p : ℝ) * factor),
        file_name := r.filename ++ "_converted.fits",
        file_data := r.image.map (fun p => (p : ℝ) * factor),
        file_header := converted_header r.header factor } := by
  unfold convert_image
  rw [h1]
  simp only [Option.bind_eq_bind, Option.some_bind]
  rw [h2]
  rfl

/-- A successful conversion iteration keeps the record's filename. -/
theorem convert_image_filename (r : Record) (out : ConvOut)
    (h : convert_image r = some out) : out.record.filename = r.filename := by
  unfold convert_image at h
  cases hI : get_instrument r.header with
  | none => rw [hI] at h; simp at h
  | some instrument =>
    rw [hI] at h
    simp only [Option.bind_eq_bind, Option.some_bind] at h
    cases hF : get_conversion_factor r.header instrument with
    | none => rw [hF] at h; simp at h
    | some factor =>
      rw [hF] at h
      simp only [Option.some_bind, Option.pure_def, Option.some.injEq] at h
      subst h
      rfl

/-- The conversion stage emits its outputs in collection order. -/
theorem convert_images_filenames :
    ∀ (images : List Record) (outs : List ConvOut),
      convert_images images = some outs →
      outs.map (fun o => o.record.filename) = images.map Record.filename := by
  intro images
  induction images with
  | nil =>
    intro outs h
    simp only [convert_images, Option.some.injEq] at h
    subst h
    rfl
  | cons r rest ih =>
    intro outs h
    simp only [convert_images, Option.bind_eq_bind] at h
    cases hc : convert_image r with
    | none => rw [hc] at h; simp at h
    | some out =>
      rw [hc] at h
      cases hr : convert_images rest with
      | none => rw [hr] at h; simp at h
      | some outs' =>
        rw [hr] at h
        simp only [Option.some_bind, Option.pure_def, Option.some.injEq] at h
        subst h
        simp only [List.map_cons]
        exact congrArg₂ List.cons (convert_image_filename r out hc) (ih outs' hr)

/-- A successful registration iteration keeps the record's filename. -/
theorem reg_action_filename (lngref latref : Option ℚ) (r : Record)
    (a : RegAction) (h : reg_action lngref latref r = some a) :
    a.filename = r.filename := by
  unfold reg_action at h
  cases hI : get_instrument r.header with
  | none => rw [hI] at h; simp at h
  | some instrument =>
    rw [hI] at h
    simp only [Option.bind_eq_bind, Option.some_bind] at h
    cases hP : get_native_pixelscale r.header instrument with
    | none => rw [hP] at h; simp at h
    | some ps =>
      rw [hP] at h
      simp only [Option.some_bind] at h
      cases hB : r.header.BUNIT with
      | none => rw [hB] at h; simp at h
      | some bu =>
        rw [hB] at h
        simp only [Option.some_bind, Option.pure_def, Option.some.injEq] at h
        subst h
        rfl

/-- The registration stage emits its actions in collection order. -/
theorem register_loop_filenames (lngref latref : Option ℚ) :
    ∀ (images : List Record) (acts : List RegAction),
      register_loop lngref latref images = some acts →
      acts.map RegAction.filename = images.map Record.filename := by
  intro images
  induction images with
  | nil =>
    intro acts h
    simp only [register_loop, Option.some.injEq] at h
    subst h
    rfl
  | cons r rest ih =>
    intro acts h
    simp only [register_loop, Option.bind_eq_bind] at h
    cases hc : reg_action lngref latref r with
    | none => rw [hc] at h; simp at h
    | some a =>
      rw [hc] at h
      cases hr : register_loop lngref latref rest with
      | none => rw [hr] at h; simp at h
      | some acts' =>
        rw [hr] at h
        simp only [Option.some_bind, Option.pure_def, Option.some.injEq] at h
        subst h
        simp only [List.map_cons]
        exact congrArg₂ List.cons (reg_action_filename lngref latref r a hc) (ih acts' hr)

/-- A successful convolution iteration keeps the record's filename. -/
theorem convolve_action_filename (fwhm_input : ℚ) (r : Record)
    (a : ConvolveAction) (h : convolve_action fwhm_input r = some a) :
    a.filename = r.filename := by
  unfold convolve_action at h
  cases hI : get_instrument r.header with
  | none => rw [hI] at h; simp at h
  | some instrument =>
    rw [hI] at h
    simp only [Option.bind_eq_bind, Option.some_bind] at h
    cases hP : get_native_pixelscale r.header instrument with
    | none => rw [hP] at h; simp at h
    | some ps =>
      rw [hP] at h
      simp only [Option.some_bind] at h
      by_cases hz : ps = 0
      · rw [if_pos hz] at h; simp at h
      · rw [if_neg hz] at h
        simp only [Option.pure_def, Option.some.injEq] at h
        subst h
        rfl

/-- The convolution stage emits its actions in collection order. -/
theorem convolve_loop_filenames (fwhm_input : ℚ) :
    ∀ (images : List Record) (acts : List ConvolveAction),
      convolve_loop fwhm_input images = some acts →
      acts.map ConvolveAction.filename = images.map Record.filename := by
  intro images
  induction images with
  | nil =>
    intro acts h
    simp only [convolve_loop, Option.some.injEq] at h
    subst h
    rfl
  | cons r rest ih =>
    intro acts h
    simp only [convolve_loop, Option.bind_eq_bind] at h
    cases hc : convolve_action fwhm_input r with
    | none => rw [hc] at h; simp at h
    | some a =>
      rw [hc] at h
      cases hr : convolve_loop fwhm_input rest with
      | none => rw [hr] at h; simp at h
      | some acts' =>
        rw [hr] at h
        simp only [Option.some_bind, Option.pure_def, Option.some.injEq] at h
        subst h
        simp only [List.map_cons]
        exact congrArg₂ List.cons (convolve_action_filename fwhm_input r a hc)
          (ih acts' hr)

/-- The shared-grid resampling loop emits its actions in collection
order. -/
theorem resample_map_filenames :
    ∀ images : List Record,
      (images.map resample_action).map ResampleAction.filename =
        images.map Record.filename := by
  intro images
  induction images with
  | nil => rfl
  | cons r rest ih => simp only [List.map_cons, ih]; rfl

/-- A successful SED-input iteration keeps the record's filename. -/
theorem sed_input_filename (r : Record) (s : SedInput)
    (h : sed_input r = some s) : s.filename = r.filename := by
  unfold sed_input at h
  cases hW : get_wavelength r.header with
  | none => rw [hW] at h; simp at h
  | some wl =>
    rw [hW] at h
    simp only [Option.map_some', Option.some.injEq] at h
    subst h
    rfl

/-- The SED stage reads its inputs in collection order. -/
theorem output_seds_filenames :
    ∀ (images : List Record) (sins : List SedInput),
      output_seds images = some sins →
      sins.map SedInput.filename = images.map Record.filename := by
  intro images
  induction images with
  | nil =>
    intro sins h
    simp only [output_seds, Option.some.injEq] at h
    subst h
    rfl
  | cons r rest ih =>
    intro sins h
    simp only [output_seds, Option.bind_eq_bind] at h
    cases hc : sed_input r with
    | none => rw [hc] at h; simp at h
    | some s =>
      rw [hc] at h
      cases hr : output_seds rest with
      | none => rw [hr] at h; simp at h
      | some sins' =>
        rw [hr] at h
        simp only [Option.some_bind, Option.pure_def, Option.some.injEq] at h
        subst h
        simp only [List.map_cons]
        exact congrArg₂ List.cons (sed_input_filename r s hc) (ih sins' hr)

/-- C7: for every input file order, the working image collection produced
by ingestion is sorted non-decreasing by the resolved wavelength in
microns (the `WAVELENG` value written back into each header), and every
subsequent stage — conversion, registration, convolution, resampling and
SED extraction — iterates the collection in exactly that order. -/
theorem images_with_headers_sorted (files recs : List Record)
    (h : build_images_with_headers files = some recs) :
    List.Sorted (fun a b => record_waveleng a ≤ record_waveleng b) recs ∧
    (∀ outs, convert_images recs = some outs →
      outs.map (fun o => o.record.filename) = recs.map Record.filename) ∧
    (∀ ra dec acts, register_images ra dec recs = some acts →
      acts.map RegAction.filename = recs.map Record.filename) ∧
    (∀ acts, convolve_images recs = some acts →
      acts.map ConvolveAction.filename = recs.map Record.filename) ∧
    (∀ phys ra dec grid acts, resample_images phys ra dec recs = some (grid, acts) →
      acts.map ResampleAction.filename = recs.map Record.filename) ∧
    (∀ sins, output_seds recs = some sins →
      sins.map SedInput.filename = recs.map Record.filename) := by
  refine ⟨?_, ?_, ?_, ?_, ?_, ?_⟩
  · obtain ⟨l, _, rfl⟩ := Option.map_eq_some'.mp h
    haveI : IsTotal Record (fun a b => record_waveleng a ≤ record_waveleng b) :=
      ⟨fun a b => le_total _ _⟩
    haveI : IsTrans Record (fun a b => record_waveleng a ≤ record_waveleng b) :=
      ⟨fun _ _ _ hab hbc => le_trans hab hbc⟩
    exact List.sorted_insertionSort _ l
  · intro outs houts
    exact convert_images_filenames recs outs houts
  · intro ra dec acts hacts
    unfold register_images at hacts
    cases hl : reference_value ra recs Keyword.CRVAL1 with
    | none => rw [hl] at hacts; simp at hacts
    | some lngref =>
      rw [hl] at hacts
      simp only [Option.bind_eq_bind, Option.some_bind] at hacts
      cases ht : reference_value dec recs Keyword.CRVAL2 with
      | none => rw [ht] at hacts; simp at hacts
      | some latref =>
        rw [ht] at hacts
        simp only [Option.some_bind] at hacts
        exact register_loop_filenames lngref latref recs acts hacts
  · intro acts hacts
    unfold convolve_images at hacts
    cases hf : get_fwhm_value (recs.map Record.header) with
    | none => rw [hf] at hacts; simp at hacts
    | some fwhm_input =>
      rw [hf] at hacts
      simp only [Option.bind_eq_bind, Option.some_bind] at hacts
      exact convolve_loop_filenames fwhm_input recs acts hacts
  · intro phys ra dec grid acts hacts
    unfold resample_images at hacts
    cases hf : get_fwhm_value (recs.map Record.header) with
    | none => rw [hf] at hacts; simp at hacts
    | some fwhm_input =>
      rw [hf] at hacts
      simp only [Option.bind_eq_bind, Option.some_bind] at hacts
      cases hp : safe_div phys (fwhm_input / NYQUIST_SAMPLING_RATE) with
      | none => rw [hp] at hacts; simp at hacts
      | some parameter1 =>
        rw [hp] at hacts
        simp only [Option.some_bind] at hacts
        cases hl : reference_value ra recs Keyword.CRVAL1 with
        | none => rw [hl] at hacts; simp at hacts
        | some lngref =>
          rw [hl] at hacts
          simp only [Option.some_bind] at hacts
          cases ht : reference_value dec recs Keyword.CRVAL2 with
          | none => rw [ht] at hacts; simp at hacts
          | some latref =>
            rw [ht] at hacts
            simp only [Option.some_bind, Option.pure_def, Option.some.injEq,
              Prod.mk.injEq] at hacts
            obtain ⟨-, hacts2⟩ := hacts
            rw [← hacts2]
            exact resample_map_filenames recs
  · intro sins hsins
    exact output_seds_filenames recs sins hsins

/-- An input file whose secondary wavelength keyword reads 100 micron (a
PACS record on which every stage can actually run: pixel scale from
`CDELT2`, `BUNIT` present, pointing keywords present). -/
def c7_file_a : Record :=
  { image := [],
    header := { INSTRUME := some "PACS", WAVELNTH := some 100,
                CDELT2 := some (2 / 3600), BUNIT := some "Jy/pixel",
                CRVAL1 := some 10, CRVAL2 := some 20 },
    filename := "pacs100" }

/-- An input file whose secondary wavelength keyword reads 70 micron. -/
def c7_file_b : Record :=
  { image := [],
    header := { INSTRUME := some "PACS", WAVELNTH := some 70,
                CDELT2 := some (2 / 3600), BUNIT := some "Jy/pixel",
                CRVAL1 := some 10, CRVAL2 := some 20 },
    filename := "pacs70" }

/-- The 70-micron record after ingestion (`WAVELENG` written back). -/
def c7_rec_b : Record :=
  { image := [],
    header := { INSTRUME := some "PACS", WAVELNTH := some 70,
                WAVELENG := some (70, "micron"),
                CDELT2 := some (2 / 3600), BUNIT := some "Jy/pixel",
                CRVAL1 := some 10, CRVAL2 := some 20 },
    filename := "pacs70" }

/-- The 100-micron record after ingestion (`WAVELENG` written back). -/
def c7_rec_a : Record :=
  { image := [],
    header := { INSTRUME := some "PACS", WAVELNTH := some 100,
                WAVELENG := some (100, "micron"),
                CDELT2 := some (2 / 3600), BUNIT := some "Jy/pixel",
                CRVAL1 := some 10, CRVAL2 := some 20 },
    filename := "pacs100" }

/-- Witness for C7 on a concrete out-of-order pair of input files: the
100-micron file listed first ends up after the 70-micron file, and all
five stage-order conjuncts are available on the sorted pair. -/
theorem images_with_headers_sorted_witness :
    List.Sorted (fun a b => record_waveleng a ≤ record_waveleng b)
      [c7_rec_b, c7_rec_a] ∧
    (∀ outs, convert_images [c7_rec_b, c7_rec_a] = some outs →
      outs.map (fun o => o.record.filename) =
        [c7_rec_b, c7_rec_a].map Record.filename) ∧
    (∀ ra dec acts, register_images ra dec [c7_rec_b, c7_rec_a] = some acts →
      acts.map RegAction.filename = [c7_rec_b, c7_rec_a].map Record.filename) ∧
    (∀ acts, convolve_images [c7_rec_b, c7_rec_a] = some acts →
      acts.map ConvolveAction.filename =
        [c7_rec_b, c7_rec_a].map Record.filename) ∧
    (∀ phys ra dec grid acts,
      resample_images phys ra dec [c7_rec_b, c7_rec_a] = some (grid, acts) →
      acts.map ResampleAction.filename =
        [c7_rec_b, c7_rec_a].map Record.filename) ∧
    (∀ sins, output_seds [c7_rec_b, c7_rec_a] = some sins →
      sins.map SedInput.filename = [c7_rec_b, c7_rec_a].map Record.filename) :=
  images_with_headers_sorted [c7_file_a, c7_file_b] [c7_rec_b, c7_rec_a] rfl

/-! ### C8 -/

/-- C8: wavelength unit normalization is the identity for a unit naming
micron, the linear angstrom-to-micron conversion `w * 1e-4` for a unit
naming angstrom, and the sentinel value 1 for every other unit string. -/
theorem wavelength_to_microns_cases (w : ℚ) (s : String) :
    (s ∈ micron_names → wavelength_to_microns (HVal.num w) s = some w) ∧
    (s ∈ angstrom_names → wavelength_to_microns (HVal.num w) s = some (w / 10000)) ∧
    (s ∉ micron_names → s ∉ angstrom_names →
      wavelength_to_microns (HVal.num w) s = some 1) := by
  refine ⟨?_, ?_, ?_⟩
  · intro hm
    unfold wavelength_to_microns
    rw [if_pos hm]
    rfl
  · intro ha
    have hm : s ∉ micron_names := by
      simp only [angstrom_names, List.mem_cons, List.not_mem_nil, or_false] at ha
      rcases ha with rfl | rfl | rfl <;> decide
    unfold wavelength_to_microns
    rw [if_neg hm, if_pos ha]
    rfl
  · intro hm ha
    unfold wavelength_to_microns
    rw [if_neg hm, if_neg ha]

/-- Witness for C8 at the unit strings `micron`, `AA` and `Jy`. -/
theorem wavelength_to_microns_cases_witness :
    wavelength_to_microns (HVal.num 5) "micron" = some 5 ∧
    wavelength_to_microns (HVal.num 5) "AA" = some (5 / 10000) ∧
    wavelength_to_microns (HVal.num 5) "Jy" = some 1 :=
  ⟨(wavelength_to_microns_cases 5 "micron").1 (by decide),
   (wavelength_to_microns_cases 5 "AA").2.1 (by decide),
   (wavelength_to_microns_cases 5 "Jy").2.2 (by decide) (by decide)⟩

/-! ### C9 -/

/-- An IRAC record with a single pixel of value 1. -/
def c9_record : Record :=
  { image := [1],
    header := { INSTRUME := some "IRAC", PXSCAL1 := some 1.2 },
    filename := "irac_im" }

/-- The conversion factor of `c9_record` (the IRAC formula at pixel scale
`|1.2|`). -/
noncomputable def c9_factor : ℝ :=
  ((MJY_PER_SR_TO_JY_PER_PIXEL * |(1.2 : ℚ)| ^ 2 : ℚ) : ℝ)

/-- C9 counterexample: applying the flux-conversion stage to a concrete
IRAC record leaves the record's own pixel array unchanged — the scaled
values live only in the separately produced `converted_data` array and the
persisted artifact — so the pixel array is not scaled in place as the
claim states (here the factor differs from 1, so in-place scaling would
have changed the array). -/
theorem convert_image_not_in_place :
    ∃ out, convert_image c9_record = some out ∧
      out.record.image = c9_record.image ∧
      out.converted ≠ c9_record.image.map (fun p => (p : ℝ)) := by
  have h2 : get_conversion_factor c9_record.header "IRAC" = some c9_factor := rfl
  have hfac : c9_factor ≠ 1 := by
    unfold c9_factor
    rw [show |(1.2 : ℚ)| = 1.2 by norm_num]
    push_cast [MJY_PER_SR_TO_JY_PER_PIXEL]
    norm_num
  refine ⟨_, convert_image_eq c9_record "IRAC" c9_factor rfl h2, rfl, ?_⟩
  intro hcontra
  apply hfac
  have h := congrArg (fun l : List ℝ => l.headI) hcontra
  simpa [c9_record] using h

/-- C9 (amended): when the flux-conversion stage is applied to an image
record whose instrument and conversion factor resolve, a scaled copy of
the pixel array is produced (the record's own array is left unchanged),
exactly two provenance keywords are written back into the record's
metadata — the unit label `BUNIT = 'Jy/pixel'` and `JYPXFACT` holding the
numeric factor — and the persisted stage output holds the pixel values
multiplied by that factor under that same mutated header. -/
theorem convert_image_copies_and_stamps (r : Record) (instrument : String)
    (factor : ℝ) (h1 : get_instrument r.header = some instrument)
    (h2 : get_conversion_factor r.header instrument = some factor) :
    ∃ out, convert_image r = some out ∧
      out.record.image = r.image ∧
      out.record.filename = r.filename ∧
      out.record.header = converted_header r.header factor ∧
      out.converted = r.image.map (fun p => (p : ℝ) * factor) ∧
      out.file_data = r.image.map (fun p => (p : ℝ) * factor) ∧
      out.file_header = out.record.header :=
  ⟨_, convert_image_eq r instrument factor h1 h2, rfl, rfl, rfl, rfl, rfl, rfl⟩

/-- Witness for C9's amended theorem at the concrete IRAC record. -/
theorem convert_image_copies_and_stamps_witness :
    ∃ out, convert_image c9_record = some out ∧
      out.record.image = c9_record.image ∧
      out.record.filename = c9_record.filename ∧
      out.record.header = converted_header c9_record.header c9_factor ∧
      out.converted = c9_record.image.map (fun p => (p : ℝ) * c9_factor) ∧
      out.file_data = c9_record.image.map (fun p => (p : ℝ) * c9_factor) ∧
      out.file_header = out.record.header :=
  convert_image_copies_and_stamps c9_record "IRAC" c9_factor rfl rfl

/-! ### C10 -/

/-- C10: the 2MASS filter match in flux conversion is case-sensitive — any
`FILTER` value other than the lowercase `j`/`h`/`k` yields the
fatal-calibration sentinel factor 0 — while wavelength resolution matches
the same filter names case-insensitively (via `.lower()`), resolving them
to the 2MASS table wavelengths. -/
theorem twomass_filter_case_sensitivity :
    (∀ (h : Header) (f : String) (m : ℚ), h.FILTER = some f → h.MAGZP = some m →
      f ≠ "j" → f ≠ "h" → f ≠ "k" →
      get_conversion_factor h "2MASS" = some 0) ∧
    (∀ (h : Header) (f : String), h.WAVELENG = none → h.WAVELNTH = none →
      h.FILTER = some f → get_instrument h = some "2MASS" → str_lower f = "j" →
      get_wavelength h = some (HVal.num WAVELENGTH_2MASS_J, "micron")) := by
  constructor
  · intro h f m hF hM hj hh hk
    have hfv : fvega_of_filter f = 0 := by
      unfold fvega_of_filter
      rw [if_neg hj, if_neg hh, if_neg hk]
    simp [get_conversion_factor, hF, hM, hfv]
  · intro h f h1 h2 h3 h4 h5
    simp [get_wavelength, h1, h2, h3, h4, h5]

/-- A 2MASS header carrying the uppercase filter name `J`. -/
def twomass_upper_header : Header :=
  { INSTRUME := some "2MASS", FILTER := some "J", MAGZP := some 20 }

/-- Witness for C10 at the uppercase filter `J`: conversion factor 0, but
a resolved J-band wavelength. -/
theorem twomass_filter_case_sensitivity_witness :
    get_conversion_factor twomass_upper_header "2MASS" = some 0 ∧
    get_wavelength twomass_upper_header =
      some (HVal.num WAVELENGTH_2MASS_J, "micron") :=
  ⟨twomass_filter_case_sensitivity.1 twomass_upper_header "J" 20 rfl rfl
      (by decide) (by decide) (by decide),
   twomass_filter_case_sensitivity.2 twomass_upper_header "J" rfl rfl rfl rfl
      (by rfl)⟩

end Imagecube
